import Mathlib

set_option maxRecDepth 4000

/-!
Shallow embedding of the task-orchestration core of the repository:
`src/main.py` (handlers `generate_epic`, `epic_status`, background pipeline
`_process_epic`, the in-memory store `tasks`) and
`src/services/jira_service.py` (`create_issue`, `create_bulk_issues`).
External effects (the language-model endpoint and the tracker HTTP API) are
modelled as oracles supplying the responses the code would read; everything
the code itself computes is embedded directly.
-/

/-- JSON values as produced by the CPython `json.loads` decoder.  Numbers
carry `isFloat` to record whether CPython would build an `int` or a `float`
(a fraction or an exponent in the literal yields `float`); `nonfinite`
covers the `NaN` / `Infinity` / `-Infinity` constants CPython accepts.
Objects are insertion-ordered association lists, matching the Python dict. -/
inductive JVal where
  | null : JVal
  | bool (b : Bool) : JVal
  | num (v : ℚ) (isFloat : Bool) : JVal
  | nonfinite (neg : Bool) (isNan : Bool) : JVal
  | str (s : String) : JVal
  | arr (xs : List JVal) : JVal
  | obj (kvs : List (String × JVal)) : JVal

def JVal.isObj : JVal → Bool
  | .obj _ => true
  | _ => false

def JVal.isArr : JVal → Bool
  | .arr _ => true
  | _ => false

/-- Error kinds raised by the CPython json scanner (plus the interpreter's
recursion guard, which the fuel models). -/
inductive JsonErrKind where
  | expectingValue : JsonErrKind
  | extraData : JsonErrKind
  | expectingCommaDelimiter : JsonErrKind
  | expectingColonDelimiter : JsonErrKind
  | expectingPropertyName : JsonErrKind
  | unterminatedString : JsonErrKind
  | invalidControlCharacter : JsonErrKind
  | invalidEscape : JsonErrKind
  | invalidUnicodeEscape : JsonErrKind
  | depthExceeded : JsonErrKind

/-- A json decode error: the kind together with the character offset the
exception reports. -/
structure JsonErr where
  kind : JsonErrKind
  pos : Nat

/-- JSON insignificant whitespace (the only characters the decoder skips). -/
def jsonWs (c : Char) : Bool :=
  c == ' ' || c == '\t' || c == '\n' || c == '\r'

def skipWs (l : List Char) : List Char := l.dropWhile jsonWs

def hexVal (c : Char) : Option Nat :=
  if '0' ≤ c ∧ c ≤ '9' then some (c.toNat - 48)
  else if 'a' ≤ c ∧ c ≤ 'f' then some (c.toNat - 87)
  else if 'A' ≤ c ∧ c ≤ 'F' then some (c.toNat - 55)
  else none

def hex4 (a b c d : Char) : Option Nat :=
  match hexVal a, hexVal b, hexVal c, hexVal d with
  | some x, some y, some z, some w => some (((x * 16 + y) * 16 + z) * 16 + w)
  | _, _, _, _ => none

/-- Single-character string escapes recognised by the json scanner. -/
def escMap : Char → Option Char
  | '"' => some '"'
  | '\\' => some '\\'
  | '/' => some '/'
  | 'b' => some '\u0008'
  | 'f' => some '\u000C'
  | 'n' => some '\n'
  | 'r' => some '\r'
  | 't' => some '\t'
  | _ => none

/-- String body scanner: `N` is the total input length (for positions), `q`
the offset of the opening quote, `acc` the reversed accumulated characters.
Follows CPython scanstring: strict control-character rejection, the escape
table, `\uXXXX` with surrogate pairing (a lone surrogate, which a Lean
`Char` cannot hold, is mapped to U+FFFD; only the character value, never
the success or failure of the parse, differs from CPython there). -/
def pString (N q : Nat) : Nat → List Char → List Char → Except JsonErr (String × List Char)
  | 0, _, rest => .error ⟨.depthExceeded, N - rest.length⟩
  | _ + 1, _, [] => .error ⟨.unterminatedString, q⟩
  | fuel + 1, acc, c :: rest =>
    if c == '"' then .ok (String.mk acc.reverse, rest)
    else if c == '\\' then
      match rest with
      | [] => .error ⟨.unterminatedString, q⟩
      | e :: rest2 =>
        match escMap e with
        | some ch => pString N q fuel (ch :: acc) rest2
        | none =>
          if e == 'u' then
            match rest2 with
            | a :: b :: c2 :: d :: rest3 =>
              match hex4 a b c2 d with
              | none => .error ⟨.invalidUnicodeEscape, N - rest2.length - 1⟩
              | some n =>
                if 0xD800 ≤ n ∧ n ≤ 0xDBFF then
                  match rest3 with
                  | '\\' :: 'u' :: a2 :: b2 :: c3 :: d2 :: rest4 =>
                    match hex4 a2 b2 c3 d2 with
                    | some m =>
                      if 0xDC00 ≤ m ∧ m ≤ 0xDFFF then
                        pString N q fuel
                          (Char.ofNat (0x10000 + (n - 0xD800) * 0x400 + (m - 0xDC00)) :: acc)
                          rest4
                      else pString N q fuel ('�' :: acc) rest3
                    | none => .error ⟨.invalidUnicodeEscape, N - rest3.length + 1⟩
                  | '\\' :: 'u' :: more =>
                    .error ⟨.invalidUnicodeEscape, N - more.length - 1⟩
                  | _ => pString N q fuel ('�' :: acc) rest3
                else if 0xDC00 ≤ n ∧ n ≤ 0xDFFF then
                  pString N q fuel ('�' :: acc) rest3
                else pString N q fuel (Char.ofNat n :: acc) rest3
            | _ => .error ⟨.invalidUnicodeEscape, N - rest2.length - 1⟩
          else .error ⟨.invalidEscape, N - rest.length - 1⟩
    else if c.toNat < 32 then .error ⟨.invalidControlCharacter, N - (c :: rest).length⟩
    else pString N q fuel (c :: acc) rest

def natOfDigits (l : List Char) : Nat :=
  l.foldl (fun a c => a * 10 + (c.toNat - 48)) 0

/-- Fraction and exponent tail of a number literal, mirroring the scanner's
regular expression: an optional `.digits` and an optional `[eE][+-]?digits`,
neither consumed unless at least one digit follows. -/
def pNumTail (neg : Bool) (intDs : List Char) (r2 : List Char) :
    ((ℚ × Bool) × List Char) :=
  let fracStep : List Char × List Char × Bool :=
    match r2 with
    | '.' :: t2 =>
      let fd := t2.takeWhile Char.isDigit
      if fd.isEmpty then ([], r2, false) else (fd, t2.dropWhile Char.isDigit, true)
    | _ => ([], r2, false)
  let fracDs := fracStep.1
  let r3 := fracStep.2.1
  let hasFrac := fracStep.2.2
  let expStep : Bool × List Char × List Char × Bool :=
    match r3 with
    | e :: t3 =>
      if e == 'e' || e == 'E' then
        match t3 with
        | '+' :: t4 =>
          let ed := t4.takeWhile Char.isDigit
          if ed.isEmpty then (false, [], r3, false)
          else (false, ed, t4.dropWhile Char.isDigit, true)
        | '-' :: t4 =>
          let ed := t4.takeWhile Char.isDigit
          if ed.isEmpty then (false, [], r3, false)
          else (true, ed, t4.dropWhile Char.isDigit, true)
        | _ =>
          let ed := t3.takeWhile Char.isDigit
          if ed.isEmpty then (false, [], r3, false)
          else (false, ed, t3.dropWhile Char.isDigit, true)
      else (false, [], r3, false)
    | [] => (false, [], r3, false)
  let expNeg := expStep.1
  let expDs := expStep.2.1
  let r4 := expStep.2.2.1
  let hasExp := expStep.2.2.2
  let i : ℚ := (natOfDigits intDs : ℚ)
  let f : ℚ := (natOfDigits fracDs : ℚ) / (10 : ℚ) ^ fracDs.length
  let ex : ℤ := if expNeg then -(natOfDigits expDs : ℤ) else (natOfDigits expDs : ℤ)
  let mag : ℚ := (i + f) * (10 : ℚ) ^ ex
  ((if neg then -mag else mag, hasFrac || hasExp), r4)

/-- Number literal: optional minus, then `0` or a nonzero-led digit run
(leading zeros are not absorbed, as in the scanner's regex), then the tail. -/
def pNum (N : Nat) (rest : List Char) : Except JsonErr ((ℚ × Bool) × List Char) :=
  let p0 := N - rest.length
  let signStep : Bool × List Char :=
    match rest with
    | '-' :: t => (true, t)
    | _ => (false, rest)
  let neg := signStep.1
  let r1 := signStep.2
  match r1 with
  | [] => .error ⟨.expectingValue, p0⟩
  | c :: t =>
    if c == '0' then .ok (pNumTail neg [c] t)
    else if c.isDigit then
      .ok (pNumTail neg ((c :: t).takeWhile Char.isDigit) ((c :: t).dropWhile Char.isDigit))
    else .error ⟨.expectingValue, p0⟩

/-- Literal prefix matcher: consumes `p` from the front of the input. -/
def matchLit : List Char → List Char → Option (List Char)
  | [], l => some l
  | _, [] => none
  | p :: ps, c :: cs => if p == c then matchLit ps cs else none

/-- Python dict insertion: an existing key keeps its position and gets the
new value, a fresh key is appended. -/
def dictInsert : List (String × JVal) → String → JVal → List (String × JVal)
  | [], k, v => [(k, v)]
  | (k0, v0) :: t, k, v =>
    if k0 = k then (k0, v) :: t else (k0, v0) :: dictInsert t k v

/-- Parser mode: a value, the items of an open array, or the members of an
open object (entered at a property-name position). -/
inductive PMode where
  | val : PMode
  | arrItems (acc : List JVal) : PMode
  | objMembers (acc : List (String × JVal)) : PMode

/-- Recursive-descent core of `json.loads`, structurally recursive on fuel
(the interpreter's recursion guard; the supplied fuel can never run out on
an input of length `N` since every nested call consumes input). -/
def pstep (N : Nat) : Nat → PMode → List Char → Except JsonErr (JVal × List Char)
  | 0, _, rest => .error ⟨.depthExceeded, N - rest.length⟩
  | fuel + 1, .val, rest0 =>
    let rest := skipWs rest0
    let p0 := N - rest.length
    match rest with
    | [] => .error ⟨.expectingValue, p0⟩
    | c :: cs =>
      if c == '"' then
        match pString N p0 (cs.length + 1) [] cs with
        | .error e => .error e
        | .ok (s, rest2) => .ok (.str s, rest2)
      else if c == '{' then
        let r2 := skipWs cs
        match r2 with
        | '}' :: cs2 => .ok (.obj [], cs2)
        | _ => pstep N fuel (.objMembers []) r2
      else if c == '[' then
        let r2 := skipWs cs
        match r2 with
        | ']' :: cs2 => .ok (.arr [], cs2)
        | _ => pstep N fuel (.arrItems []) r2
      else
        let lit : Option (JVal × List Char) :=
          ((matchLit ['n', 'u', 'l', 'l'] rest).map (fun r => (JVal.null, r))).orElse (fun _ =>
          ((matchLit ['t', 'r', 'u', 'e'] rest).map (fun r => (JVal.bool true, r))).orElse (fun _ =>
          ((matchLit ['f', 'a', 'l', 's', 'e'] rest).map (fun r => (JVal.bool false, r))).orElse (fun _ =>
          ((matchLit ['N', 'a', 'N'] rest).map (fun r => (JVal.nonfinite false true, r))).orElse (fun _ =>
          ((matchLit ['I', 'n', 'f', 'i', 'n', 'i', 't', 'y'] rest).map
            (fun r => (JVal.nonfinite false false, r))).orElse (fun _ =>
          (matchLit ['-', 'I', 'n', 'f', 'i', 'n', 'i', 't', 'y'] rest).map
            (fun r => (JVal.nonfinite true false, r)))))))
        match lit with
        | some (v, r2) => .ok (v, r2)
        | none =>
          if c == '-' || c.isDigit then
            match pNum N rest with
            | .error e => .error e
            | .ok ((v, fl), r2) => .ok (.num v fl, r2)
          else .error ⟨.expectingValue, p0⟩
  | fuel + 1, .arrItems acc, rest =>
    match pstep N fuel .val rest with
    | .error e => .error e
    | .ok (v, rest2) =>
      let r3 := skipWs rest2
      match r3 with
      | ']' :: cs => .ok (.arr (acc ++ [v]), cs)
      | ',' :: cs => pstep N fuel (.arrItems (acc ++ [v])) cs
      | _ => .error ⟨.expectingCommaDelimiter, N - r3.length⟩
  | fuel + 1, .objMembers acc, rest =>
    match rest with
    | c :: cs =>
      if c == '"' then
        match pString N (N - rest.length) (cs.length + 1) [] cs with
        | .error e => .error e
        | .ok (k, rest2) =>
          let r3 := skipWs rest2
          match r3 with
          | ':' :: cs2 =>
            match pstep N fuel .val cs2 with
            | .error e => .error e
            | .ok (v, rest3) =>
              let acc2 := dictInsert acc k v
              let r4 := skipWs rest3
              match r4 with
              | '}' :: cs3 => .ok (.obj acc2, cs3)
              | ',' :: cs3 => pstep N fuel (.objMembers acc2) (skipWs cs3)
              | _ => .error ⟨.expectingCommaDelimiter, N - r4.length⟩
          | _ => .error ⟨.expectingColonDelimiter, N - r3.length⟩
      else .error ⟨.expectingPropertyName, N - rest.length⟩
    | [] => .error ⟨.expectingPropertyName, N⟩

/-- Embedding of `json.loads`: decode one value, then require only trailing
whitespace. -/
def json_loads (s : String) : Except JsonErr JVal :=
  let cs := s.data
  let N := cs.length
  match pstep N (2 * N + 8) .val cs with
  | .error e => .error e
  | .ok (v, rest) =>
    let r2 := skipWs rest
    match r2 with
    | [] => .ok v
    | _ => .error ⟨.extraData, N - r2.length⟩

/-- Python type name of a decoded json value, as it appears in exception
messages such as AttributeError and TypeError. -/
def pyTypeName : JVal → String
  | .null => "NoneType"
  | .bool _ => "bool"
  | .num _ false => "int"
  | .num _ true => "float"
  | .nonfinite _ _ => "float"
  | .str _ => "str"
  | .arr _ => "list"
  | .obj _ => "dict"

/-- Message of the AttributeError Python raises when a non-dict value is
asked for a dict method (the quotes of the original message are kept). -/
def attrErrMsg (v : JVal) (name : String) : String :=
  "'" ++ pyTypeName v ++ "' object has no attribute '" ++ name ++ "'"

/-- Message of the TypeError raised by `len` on an unsized value. -/
def lenErrMsg (v : JVal) : String :=
  "object of type '" ++ pyTypeName v ++ "' has no len()"

/-- Message of the TypeError raised by iterating a non-iterable value. -/
def iterErrMsg (v : JVal) : String :=
  "'" ++ pyTypeName v ++ "' object is not iterable"

/-- First value for a key in a decoded object (python dict lookup; the
parser keeps keys unique, the first occurrence carries the live value). -/
def assocFind (kvs : List (String × JVal)) (k : String) : Option JVal :=
  (kvs.find? (fun p => p.1 == k)).map (fun p => p.2)

/-- Python `d.get(k)` (default `None`): only dicts have `.get`. -/
def pyGet (v : JVal) (k : String) : Except String JVal :=
  match v with
  | .obj kvs => .ok ((assocFind kvs k).getD .null)
  | _ => .error (attrErrMsg v ("get"))

/-- Python `d.get(k, default)`. -/
def pyGetD (v : JVal) (k : String) (d : JVal) : Except String JVal :=
  match v with
  | .obj kvs => .ok ((assocFind kvs k).getD d)
  | _ => .error (attrErrMsg v ("get"))

/-- Python `len` on a decoded json value. -/
def pyLen (v : JVal) : Except String Nat :=
  match v with
  | .str s => .ok s.length
  | .arr xs => .ok xs.length
  | .obj kvs => .ok kvs.length
  | _ => .error (lenErrMsg v)

/-- Python iteration over a decoded json value: a list yields its elements,
a dict its keys, a string its characters (as one-character strings). -/
def pyIter (v : JVal) : Except String (List JVal) :=
  match v with
  | .arr xs => .ok xs
  | .obj kvs => .ok (kvs.map (fun p => JVal.str p.1))
  | .str s => .ok (s.data.map (fun c => JVal.str (String.mk [c])))
  | _ => .error (iterErrMsg v)

/-- Python truthiness of a decoded json value. -/
def pyTruthy (v : JVal) : Bool :=
  match v with
  | .null => false
  | .bool b => b
  | .num q _ => !(q == 0)
  | .nonfinite _ _ => true
  | .str s => !(s == "")
  | .arr xs => !xs.isEmpty
  | .obj kvs => !kvs.isEmpty

/-- Truthiness of the optional `parent_key` argument (`None` and the empty
string are falsy). -/
def optStrTruthy (o : Option String) : Bool :=
  match o with
  | none => false
  | some s => !(s == "")

/-- Python `x.lower()`: only strings have it. -/
def pyLower (v : JVal) : Except String String :=
  match v with
  | .str s => .ok s.toLower
  | _ => .error (attrErrMsg v ("lower"))

/-- Python `str.strip()` whitespace set (Py_UNICODE_ISSPACE). -/
def pySpaceChar (c : Char) : Bool :=
  [9, 10, 11, 12, 13, 28, 29, 30, 31, 32, 0x85, 0xA0, 0x1680,
   0x2000, 0x2001, 0x2002, 0x2003, 0x2004, 0x2005, 0x2006, 0x2007,
   0x2008, 0x2009, 0x200A, 0x2028, 0x2029, 0x202F, 0x205F, 0x3000].contains c.toNat

/-- Embedding of Python `s.strip()`: remove leading and trailing whitespace. -/
def pyStrip (s : String) : String :=
  String.mk (((s.data.dropWhile pySpaceChar).reverse.dropWhile pySpaceChar).reverse)

/-- Embedding of `epic_key.split("-")[0]` from `_process_epic`: the part of
the key before the first dash (the whole key when there is no dash). -/
def pySplitHead (s : String) : String :=
  String.mk (s.data.takeWhile (fun c => !(c == '-')))

/-- Tracker responses consumed by one `create_issue` call: the creation
POST (its decoded json body, or the textual form of the exception
`raise_for_status` or the transport raises) and the follow-up field-update
PUT (whose body is never read; only a raised transport error matters,
since the code checks--but only logs--a bad PUT status). -/
structure CreateResp where
  post : Except String JVal
  put : Except String Unit

/-- Arguments of one tracker creation request, as `create_bulk_issues`
passes them to `create_issue` (values come from the parsed descriptor via
`.get` with the source's defaults, so they are arbitrary json values). -/
structure CreateArgs where
  project_key : String
  summary : JVal
  description : JVal
  issue_type : JVal
  parent_key : Option String

/-- Update step of `jira_service.create_issue` after a successful creation:
skipped when the returned issue key is falsy; otherwise the update payload
is assembled (evaluating `issue_type.lower()` when a parent key is present,
which raises on a non-string type) and, when any field was added, the PUT
is performed and a transport error from it propagates. -/
def updateStep (a : CreateArgs) (issue_key : JVal) (put : Except String Unit) :
    Except String Unit :=
  if pyTruthy issue_key then
    if optStrTruthy a.parent_key then
      match pyLower a.issue_type with
      | .error e => .error e
      | .ok _ => put
    else if pyTruthy a.description then put
    else .ok ()
  else .ok ()

/-- Embedding of `jira_service.create_issue`: POST the creation payload,
raise on a failed response, read the created issue's key, run the update
step, and return the creation response body. -/
def create_issue (a : CreateArgs) (r : CreateResp) : Except String JVal :=
  match r.post with
  | .error e => .error e
  | .ok created =>
    match pyGet created ("key") with
    | .error e => .error e
    | .ok issue_key =>
      match updateStep a issue_key r.put with
      | .error e => .error e
      | .ok _ => .ok created

/-- Embedding of `jira_service.create_bulk_issues`: sequentially read each
descriptor's fields (AttributeError on a non-dict descriptor), create the
issue, and collect the responses; the first raised error aborts the loop.
`oracle n` supplies the tracker's responses to the n-th creation request;
the returned trace lists the creation requests actually issued, in order. -/
def create_bulk_issues (pk : String) (parent : Option String)
    (oracle : Nat → CreateResp) :
    List JVal → Nat → List CreateArgs × Except String (List JVal)
  | [], _ => ([], .ok [])
  | issue :: rest, n =>
    match pyGetD issue ("summary") (.str "") with
    | .error e => ([], .error e)
    | .ok summary =>
      match pyGetD issue ("description") (.str "") with
      | .error e => ([], .error e)
      | .ok description =>
        match pyGetD issue ("issue_type") (.str ("Task")) with
        | .error e => ([], .error e)
        | .ok ity =>
          let a : CreateArgs := ⟨pk, summary, description, ity, parent⟩
          match create_issue a (oracle n) with
          | .error e => ([a], .error e)
          | .ok created =>
            let next := create_bulk_issues pk parent oracle rest (n + 1)
            (a :: next.1,
              match next.2 with
              | .error e => .error e
              | .ok xs => .ok (created :: xs))

/-- The fields `create_bulk_issues` reads from a descriptor (total version
that agrees with the fallible `.get` embedding on dict descriptors):
the creation request the n-th descriptor produces. -/
def argsOf (pk : String) (parent : Option String) (issue : JVal) : CreateArgs :=
  match issue with
  | .obj kvs =>
    ⟨pk, (assocFind kvs ("summary")).getD (.str ""),
      (assocFind kvs ("description")).getD (.str ""),
      (assocFind kvs ("issue_type")).getD (.str ("Task")), parent⟩
  | _ => ⟨pk, .str "", .str "", .str ("Task"), parent⟩

/-- The `key` field of a creation response dict (total version used to
state which keys the completed record carries). -/
def totalGetKey (v : JVal) : JVal :=
  match v with
  | .obj kvs => (assocFind kvs ("key")).getD .null
  | _ => .null

/-- Embedding of `[issue.get("key") for issue in created_issues]`. -/
def mapGetKeys : List JVal → Except String (List JVal)
  | [] => .ok []
  | v :: t =>
    match pyGet v ("key") with
    | .error e => .error e
    | .ok k =>
      match mapGetKeys t with
      | .error e => .error e
      | .ok ks => .ok (k :: ks)

/-- Render of `str(exc)` for a `json.JSONDecodeError`: the scanner message
followed by the 1-based line and column and 0-based offset computed from
the document; the recursion-guard error renders the RecursionError text. -/
def renderJsonErr (s : String) (e : JsonErr) : String :=
  match e.kind with
  | .depthExceeded => "maximum recursion depth exceeded"
  | k =>
    let msg : String :=
      match k with
      | .expectingValue => "Expecting value"
      | .extraData => "Extra data"
      | .expectingCommaDelimiter => "Expecting ',' delimiter"
      | .expectingColonDelimiter => "Expecting ':' delimiter"
      | .expectingPropertyName => "Expecting property name enclosed in double quotes"
      | .unterminatedString => "Unterminated string starting at"
      | .invalidControlCharacter => "Invalid control character at"
      | .invalidEscape => "Invalid \\escape"
      | .invalidUnicodeEscape => "Invalid \\uXXXX escape"
      | .depthExceeded => ""
    let pre := s.data.take e.pos
    let lineno := pre.count '\n' + 1
    let colno :=
      match (pre.reverse.findIdx? (fun c => c == '\n')) with
      | some j => j + 1
      | none => e.pos + 1
    msg ++ ": line " ++ toString lineno ++ " column " ++ toString colno ++
      " (char " ++ toString e.pos ++ ")"

/-- One record of the in-memory `tasks` store of `src/main.py`.  A
`processing` state never occurs in a stored record: the only writes are
the two terminal ones in `_process_epic`.  `created_issues` is `none` when
the written dict carries no such field (the `failed` write). -/
structure TaskRecord where
  key : String
  status : String
  result : Option String
  created_issues : Option (List JVal)

/-- Embedding of the background pipeline `_process_epic` of `src/main.py`.
`llm` is the outcome of the awaited `llm_service.chat_completion` call (the
raw model text, or the textual form of the exception it raised); `oracle`
supplies the tracker's responses.  Returns the single task record the
pipeline writes for its task id, together with the trace of tracker
creation requests issued. -/
def _process_epic (epic_key : String) (llm : Except String String)
    (oracle : Nat → CreateResp) : TaskRecord × List CreateArgs :=
  match llm with
  | .error e => (⟨epic_key, "failed", some e, none⟩, [])
  | .ok result =>
    let project_key := pySplitHead epic_key
    match json_loads (pyStrip result) with
    | .error e => (⟨epic_key, "failed", some (renderJsonErr (pyStrip result) e), none⟩, [])
    | .ok issues_data =>
      match pyLen issues_data with
      | .error e => (⟨epic_key, "failed", some e, none⟩, [])
      | .ok _ =>
        match pyIter issues_data with
        | .error e => (⟨epic_key, "failed", some e, none⟩, [])
        | .ok items =>
          let run := create_bulk_issues project_key (some epic_key) oracle items 0
          match run.2 with
          | .error e => (⟨epic_key, "failed", some e, none⟩, run.1)
          | .ok created_issues =>
            match mapGetKeys created_issues with
            | .error e => (⟨epic_key, "failed", some e, none⟩, run.1)
            | .ok issue_keys =>
              (⟨epic_key, "completed", some result, some issue_keys⟩, run.1)

/-- The in-memory task store: `task_id -> record`, iterated in insertion
order exactly like the Python dict `tasks`. -/
abbrev TaskStore := List (String × TaskRecord)

/-- Python dict assignment `tasks[task_id] = record`: an existing id keeps
its position, a fresh id is appended. -/
def storePut : TaskStore → String → TaskRecord → TaskStore
  | [], id, r => [(id, r)]
  | (i0, r0) :: t, id, r =>
    if i0 = id then (i0, r) :: t else (i0, r0) :: storePut t id r

/-- Store lookup by task identifier (used to state that later writes under
other identifiers leave a record untouched). -/
def storeGet (s : TaskStore) (id : String) : Option TaskRecord :=
  (s.find? (fun e => e.1 == id)).map (fun e => e.2)

/-- Pydantic model `EpicStatusResponse` of `src/models.py`. -/
structure EpicStatusResponse where
  key : String
  status : String
  result : Option String
  created_issues : Option (List String)

/-- Pydantic model `EpicGenerateResponse` of `src/models.py`. -/
structure EpicGenerateResponse where
  task_id : String
  status : String

/-- Pydantic model `EpicGenerateRequest` of `src/models.py`. -/
structure EpicGenerateRequest where
  model : String
  input : String
  epic_key : String

/-- Pydantic validation of one element of `created_issues` against
`list[str]` (smart mode: everything but an actual string is rejected). -/
def pyStrField (v : JVal) : Except String String :=
  match v with
  | .str s => .ok s
  | _ => .error ("Input should be a valid string")

def pyStrFieldList : List JVal → Except String (List String)
  | [] => .ok []
  | v :: t =>
    match pyStrField v with
    | .error e => .error e
    | .ok s =>
      match pyStrFieldList t with
      | .error e => .error e
      | .ok ss => .ok (s :: ss)

/-- Validation performed by `EpicStatusResponse(**entry)` on a stored
record: the string fields pass through, `created_issues` (when present)
must be a list of strings. -/
def validateRecord (r : TaskRecord) : Except String EpicStatusResponse :=
  match r.created_issues with
  | none => .ok ⟨r.key, r.status, r.result, none⟩
  | some l =>
    match pyStrFieldList l with
    | .error e => .error e
    | .ok sl => .ok ⟨r.key, r.status, r.result, some sl⟩

/-- Embedding of the `epic_status` handler: scan the store's records in
insertion order for the first whose business key matches, validate it into
the response model; an unmatched key yields the `not_found` view. -/
def epic_status (store : TaskStore) (key : String) : Except String EpicStatusResponse :=
  match store.find? (fun e => e.2.key == key) with
  | some e => validateRecord e.2
  | none => .ok ⟨key, "not_found", none, none⟩

/-- A background pipeline invocation scheduled by `generate_epic`, with the
arguments `background_tasks.add_task` captures. -/
structure PendingTask where
  task_id : String
  epic_key : String
  input : String
  model : String

/-- Embedding of the `generate_epic` handler: allocate a task id (the
uuid, supplied as a parameter, is the only external input), schedule the
pipeline, and return the response.  The handler never touches the task
store, so the store passes through unchanged. -/
def generate_epic (store : TaskStore) (task_id : String) (req : EpicGenerateRequest) :
    TaskStore × EpicGenerateResponse × List PendingTask :=
  (store, ⟨task_id, "processing"⟩, [⟨task_id, req.epic_key, req.input, req.model⟩])

/-- A nonempty left part keeps a string concatenation nonempty. -/
theorem append_ne_empty_left (a b : String) (h : a ≠ "") : a ++ b ≠ "" := by
  intro hab
  apply h
  apply String.ext
  have hd := congrArg String.data hab
  rw [String.data_append] at hd
  cases he : a.data with
  | nil => rfl
  | cons c cs => rw [he] at hd; simp at hd

/-- A scanner message followed by the rendered location is nonempty. -/
theorem msgloc_ne_empty (m a b c : String) (hm : m ≠ "") :
    m ++ ": line " ++ a ++ " column " ++ b ++ " (char " ++ c ++ ")" ≠ "" :=
  append_ne_empty_left _ _ (append_ne_empty_left _ _ (append_ne_empty_left _ _
    (append_ne_empty_left _ _ (append_ne_empty_left _ _ (append_ne_empty_left _ _
    (append_ne_empty_left _ _ hm))))))

/-- Rendered json decode errors are never empty (the claim that a failed
parse records a non-empty description rests on this). -/
theorem renderJsonErr_ne_empty (s : String) (e : JsonErr) : renderJsonErr s e ≠ "" := by
  obtain ⟨k, p⟩ := e
  cases k
  case depthExceeded =>
    intro h
    have hlit : ("maximum recursion depth exceeded" : String) = "" := h
    exact absurd hlit (by decide)
  all_goals exact msgloc_ne_empty _ _ _ _ (by decide)

/-- The pipeline writes exactly one record, and it is terminal: a failed
record carrying the message and no created issues, or a completed record
carrying the raw text and the created keys.  Every claim about terminal
writes reduces to this case split. -/
theorem process_epic_shape (ek : String) (llm : Except String String)
    (oracle : Nat → CreateResp) :
    (∃ m, (_process_epic ek llm oracle).1 = ⟨ek, "failed", some m, none⟩) ∨
    (∃ res keys, (_process_epic ek llm oracle).1 = ⟨ek, "completed", some res, some keys⟩) := by
  cases llm with
  | error e => exact .inl ⟨e, rfl⟩
  | ok result =>
    cases hj : json_loads (pyStrip result) with
    | error e =>
      refine .inl ⟨renderJsonErr (pyStrip result) e, ?_⟩
      simp only [_process_epic, hj]
    | ok issues_data =>
      cases hl : pyLen issues_data with
      | error e =>
        refine .inl ⟨e, ?_⟩
        simp only [_process_epic, hj, hl]
      | ok n =>
        cases hi : pyIter issues_data with
        | error e =>
          refine .inl ⟨e, ?_⟩
          simp only [_process_epic, hj, hl, hi]
        | ok items =>
          cases hr : (create_bulk_issues (pySplitHead ek) (some ek) oracle items 0).2 with
          | error e =>
            refine .inl ⟨e, ?_⟩
            simp only [_process_epic, hj, hl, hi, hr]
          | ok created =>
            cases hm : mapGetKeys created with
            | error e =>
              refine .inl ⟨e, ?_⟩
              simp only [_process_epic, hj, hl, hi, hr, hm]
            | ok keys =>
              refine .inr ⟨result, keys, ?_⟩
              simp only [_process_epic, hj, hl, hi, hr, hm]

/-- Writing a record under a fresh task identifier leaves the record of
every other identifier unchanged. -/
theorem storeGet_storePut_ne (store : TaskStore) (id id2 : String)
    (r2 : TaskRecord) (h : id ≠ id2) :
    storeGet (storePut store id2 r2) id = storeGet store id := by
  have hne : (id2 == id) = false := by
    simp only [beq_eq_false_iff_ne]
    exact fun hc => h hc.symm
  induction store with
  | nil => simp [storePut, storeGet, List.find?, hne]
  | cons e t ih =>
    obtain ⟨i0, r0⟩ := e
    by_cases h0 : i0 = id2
    · subst h0
      simp [storePut, storeGet, List.find?, hne]
    · simp only [storePut, if_neg h0]
      by_cases h1 : i0 = id
      · subst h1
        simp [storeGet, List.find?]
      · have h1b : (i0 == id) = false := by simpa using h1
        simp only [storeGet, List.find?, h1b] at ih ⊢
        exact ih

/-- A scan predicated on the business key finds nothing in a store none of
whose records carry that key. -/
theorem find?_no_key_match (store : TaskStore) (k : String)
    (h : ∀ e ∈ store, e.2.key ≠ k) :
    store.find? (fun e => e.2.key == k) = none := by
  rw [List.find?_eq_none]
  intro x hx
  simpa using h x hx

/-- The status scan of a store whose leading records miss the key resolves
at the first matching record (insertion order). -/
theorem epic_status_first_match (pre : TaskStore) (idr : String × TaskRecord)
    (post : TaskStore) (k : String) (hk : idr.2.key = k)
    (hpre : ∀ e ∈ pre, e.2.key ≠ k) :
    epic_status (pre ++ idr :: post) k = validateRecord idr.2 := by
  unfold epic_status
  have hfind : (pre ++ idr :: post).find? (fun e => e.2.key == k) = some idr := by
    rw [List.find?_append, find?_no_key_match pre k hpre]
    simp [List.find?_cons, hk]
  rw [hfind]

/-- C1 (counterexample): the claim says a `processing` record for the new
task appears in the store before `generate_epic` returns, so that a status
query issued before the pipeline finishes observes `processing`.  On an
empty store, submitting leaves the store empty and the status query for the
submitted business key answers `not_found`. -/
theorem C1_counterexample :
    (generate_epic [] ("tid-1") ⟨("m"), ("text"), ("PROJ-1")⟩).1 = ([] : TaskStore) ∧
    epic_status (generate_epic [] ("tid-1") ⟨("m"), ("text"), ("PROJ-1")⟩).1 ("PROJ-1") =
      .ok ⟨("PROJ-1"), ("not_found"), none, none⟩ :=
  ⟨rfl, rfl⟩

/-- C1 (amended): `generate_epic` allocates a task identifier and schedules
exactly one pipeline run, but writes nothing to the task store before
returning: the response alone carries `processing`, and a status query for
a business key no stored task carries answers `not_found` until the
pipeline's terminal write lands. -/
theorem C1_submit_writes_no_record (store : TaskStore) (tid : String)
    (req : EpicGenerateRequest) :
    (generate_epic store tid req).1 = store ∧
    (generate_epic store tid req).2.1 = ⟨tid, ("processing")⟩ ∧
    (generate_epic store tid req).2.2 = [⟨tid, req.epic_key, req.input, req.model⟩] ∧
    ∀ k : String, (∀ e ∈ store, e.2.key ≠ k) →
      epic_status (generate_epic store tid req).1 k = .ok ⟨k, ("not_found"), none, none⟩ := by
  refine ⟨rfl, rfl, rfl, ?_⟩
  intro k hk
  show epic_status store k = _
  unfold epic_status
  rw [find?_no_key_match store k hk]

/-- C1 witness: the amended statement evaluated on an empty store. -/
theorem C1_submit_writes_no_record_witness :
    (generate_epic [] ("t1") ⟨("m"), ("i"), ("PROJ-9")⟩).1 = ([] : TaskStore) ∧
    epic_status (generate_epic [] ("t1") ⟨("m"), ("i"), ("PROJ-9")⟩).1 ("PROJ-9") =
      .ok ⟨("PROJ-9"), ("not_found"), none, none⟩ :=
  ⟨(C1_submit_writes_no_record [] ("t1") ⟨("m"), ("i"), ("PROJ-9")⟩).1,
    (C1_submit_writes_no_record [] ("t1") ⟨("m"), ("i"), ("PROJ-9")⟩).2.2.2 ("PROJ-9")
      (by intro e he; cases he)⟩

/-- C2: the pipeline performs exactly one terminal write per run: the single
record it produces has status `completed` exactly when it does not have
status `failed` (so the terminal status is one of the two, never both), and
a write under any other (fresh) task identifier leaves the record stored
for this identifier untouched, so a terminal record never changes. -/
theorem C2_one_terminal_write (ek : String) (llm : Except String String)
    (oracle : Nat → CreateResp) (store : TaskStore) (id id2 : String)
    (r2 : TaskRecord) (hne : id ≠ id2) :
    (((_process_epic ek llm oracle).1.status = ("completed")) ↔
      ¬((_process_epic ek llm oracle).1.status = ("failed"))) ∧
    storeGet (storePut store id2 r2) id = storeGet store id := by
  refine ⟨?_, storeGet_storePut_ne store id id2 r2 hne⟩
  rcases process_epic_shape ek llm oracle with ⟨m, hm⟩ | ⟨res, keys, hm⟩ <;> rw [hm] <;> simp

/-- C2 witness: the terminal-status dichotomy and write-isolation evaluated
on a concrete failing run and a two-identifier store. -/
theorem C2_one_terminal_write_witness :
    (((_process_epic ("E-1") (.error ("boom")) (fun _ => ⟨.ok .null, .ok ()⟩)).1.status
        = ("completed")) ↔
      ¬((_process_epic ("E-1") (.error ("boom")) (fun _ => ⟨.ok .null, .ok ()⟩)).1.status
        = ("failed"))) ∧
    storeGet (storePut [(("a"), ⟨("E-1"), ("failed"), some ("x"), none⟩)] ("b")
        ⟨("E-2"), ("completed"), some ("y"), some []⟩) ("a") =
      storeGet [(("a"), ⟨("E-1"), ("failed"), some ("x"), none⟩)] ("a") :=
  C2_one_terminal_write ("E-1") (.error ("boom")) (fun _ => ⟨.ok .null, .ok ()⟩)
    [(("a"), ⟨("E-1"), ("failed"), some ("x"), none⟩)] ("a") ("b")
    ⟨("E-2"), ("completed"), some ("y"), some []⟩ (by decide)

/-- C4 (counterexample): two records written in this order share the
business key; the claim says the query returns the most recently observed
(last-written) data, but the scan returns the first-written record: the
query answers `completed`/A/[K-1] although the last write for the key was
`failed`/B with no created issues. -/
theorem C4_counterexample :
    epic_status
      (storePut (storePut [] ("t1") ⟨("PROJ-1"), ("completed"), some ("A"), some [JVal.str ("K-1")]⟩)
        ("t2") ⟨("PROJ-1"), ("failed"), some ("B"), none⟩) ("PROJ-1") =
      .ok ⟨("PROJ-1"), ("completed"), some ("A"), some [("K-1")]⟩ ∧
    validateRecord ⟨("PROJ-1"), ("failed"), some ("B"), none⟩ =
      .ok ⟨("PROJ-1"), ("failed"), some ("B"), none⟩ ∧
    (⟨("PROJ-1"), ("completed"), some ("A"), some [("K-1")]⟩ : EpicStatusResponse) ≠
      ⟨("PROJ-1"), ("failed"), some ("B"), none⟩ := by
  refine ⟨rfl, rfl, ?_⟩
  intro h
  exact absurd (congrArg EpicStatusResponse.status h) (by decide)

/-- C4 (amended): when several records share a business key, the status
query returns the view of the earliest-written matching record (the first
match of the insertion-ordered scan): first write wins, independent of any
later matching writes. -/
theorem C4_first_write_wins (pre : TaskStore) (idr : String × TaskRecord)
    (post : TaskStore) (k : String) (hk : idr.2.key = k)
    (hpre : ∀ e ∈ pre, e.2.key ≠ k) :
    epic_status (pre ++ idr :: post) k = validateRecord idr.2 :=
  epic_status_first_match pre idr post k hk hpre

/-- C4 witness: first-write-wins evaluated on a two-record store sharing a
key. -/
theorem C4_first_write_wins_witness :
    epic_status
      [(("t1"), ⟨("PROJ-1"), ("completed"), some ("A"), some [JVal.str ("K-1")]⟩),
        (("t2"), ⟨("PROJ-1"), ("failed"), some ("B"), none⟩)] ("PROJ-1") =
      validateRecord ⟨("PROJ-1"), ("completed"), some ("A"), some [JVal.str ("K-1")]⟩ :=
  C4_first_write_wins []
    (("t1"), ⟨("PROJ-1"), ("completed"), some ("A"), some [JVal.str ("K-1")]⟩)
    [(("t2"), ⟨("PROJ-1"), ("failed"), some ("B"), none⟩)] ("PROJ-1") rfl
    (by intro e he; cases he)

/-- C7: a model response whose stripped text fails json decoding drives the
task to `failed`, and the recorded result is the rendered decode error,
which is never empty. -/
theorem C7_invalid_json_fails_nonempty (ek raw : String) (oracle : Nat → CreateResp)
    (e : JsonErr) (hp : json_loads (pyStrip raw) = .error e) :
    (_process_epic ek (.ok raw) oracle).1.status = ("failed") ∧
    ∃ m, (_process_epic ek (.ok raw) oracle).1.result = some m ∧ m ≠ "" := by
  have hrec : (_process_epic ek (.ok raw) oracle).1 =
      ⟨ek, "failed", some (renderJsonErr (pyStrip raw) e), none⟩ := by
    simp only [_process_epic, hp]
  rw [hrec]
  exact ⟨rfl, _, rfl, renderJsonErr_ne_empty _ _⟩

/-- C7 witness: the response `"not json"` fails decoding at offset 0. -/
theorem C7_invalid_json_fails_nonempty_witness :
    (_process_epic ("E-1") (.ok ("not json")) (fun _ => ⟨.ok .null, .ok ()⟩)).1.status
      = ("failed") ∧
    ∃ m, (_process_epic ("E-1") (.ok ("not json"))
      (fun _ => ⟨.ok .null, .ok ()⟩)).1.result = some m ∧ m ≠ "" :=
  C7_invalid_json_fails_nonempty ("E-1") ("not json") (fun _ => ⟨.ok .null, .ok ()⟩)
    ⟨.expectingValue, 0⟩ rfl

/-- C8: on the model response `[]` the task completes with an empty
`created_issues` and no tracker creation request is ever issued (the trace
of creation requests is empty), whatever the tracker oracle would answer. -/
theorem C8_empty_array_completes (ek : String) (oracle : Nat → CreateResp) :
    _process_epic ek (.ok ("[]")) oracle =
      (⟨ek, ("completed"), some ("[]"), some []⟩, []) := rfl

/-- C9: a status query for a business key carried by no stored record
returns the normal `not_found` view carrying the queried key and neither a
result nor created issues; no error is produced. -/
theorem C9_unknown_key_not_found (store : TaskStore) (k : String)
    (h : ∀ e ∈ store, e.2.key ≠ k) :
    epic_status store k = .ok ⟨k, ("not_found"), none, none⟩ := by
  unfold epic_status
  rw [find?_no_key_match store k h]

/-- C9 witness: querying a key absent from a one-record store. -/
theorem C9_unknown_key_not_found_witness :
    epic_status [(("t1"), ⟨("A-1"), ("completed"), some ("r"), some []⟩)] ("B-2") =
      .ok ⟨("B-2"), ("not_found"), none, none⟩ :=
  C9_unknown_key_not_found [(("t1"), ⟨("A-1"), ("completed"), some ("r"), some []⟩)]
    ("B-2") (by decide)

/-- C10: every record the pipeline writes with status `failed` carries no
`created_issues` field, so a status query resolving at such a record
returns a view whose created issues are absent, regardless of how many
tracker creations succeeded before the failure. -/
theorem C10_failed_record_hides_created (ek : String) (llm : Except String String)
    (oracle : Nat → CreateResp) (id : String) (pre post : TaskStore)
    (hstat : (_process_epic ek llm oracle).1.status = ("failed"))
    (hpre : ∀ e ∈ pre, e.2.key ≠ ek) :
    (_process_epic ek llm oracle).1.created_issues = none ∧
    epic_status (pre ++ (id, (_process_epic ek llm oracle).1) :: post) ek =
      .ok ⟨ek, ("failed"), (_process_epic ek llm oracle).1.result, none⟩ := by
  rcases process_epic_shape ek llm oracle with ⟨m, hm⟩ | ⟨res, keys, hm⟩
  · constructor
    · rw [hm]
    · have h2 := epic_status_first_match pre (id, (_process_epic ek llm oracle).1) post ek
        (by rw [hm]) hpre
      rw [h2, hm]
      rfl
  · rw [hm] at hstat
    exact absurd hstat (by simp)

/-- C10 witness: a pipeline run failing at the json decode step, queried
through a store whose only record is that failed write. -/
theorem C10_failed_record_hides_created_witness :
    (_process_epic ("E-1") (.ok ("x")) (fun _ => ⟨.ok .null, .ok ()⟩)).1.created_issues
      = none ∧
    epic_status
      ([] ++ (("t1"), (_process_epic ("E-1") (.ok ("x"))
        (fun _ => ⟨.ok .null, .ok ()⟩)).1) :: []) ("E-1") =
      .ok ⟨("E-1"), ("failed"),
        (_process_epic ("E-1") (.ok ("x")) (fun _ => ⟨.ok .null, .ok ()⟩)).1.result, none⟩ :=
  C10_failed_record_hides_created ("E-1") (.ok ("x")) (fun _ => ⟨.ok .null, .ok ()⟩)
    ("t1") [] [] rfl (by intro e he; cases he)

/-- Reading the three descriptor fields of a dict descriptor succeeds and
produces exactly the creation request `argsOf` describes; a successful
creation prepends its response and recurses with the next oracle index. -/
theorem create_bulk_cons_ok (pk : String) (par : Option String)
    (oracle : Nat → CreateResp) (it : JVal) (t : List JVal) (n : Nat) (d : JVal)
    (hobj : it.isObj = true)
    (hci : create_issue (argsOf pk par it) (oracle n) = .ok d) :
    create_bulk_issues pk par oracle (it :: t) n =
      ((argsOf pk par it) :: (create_bulk_issues pk par oracle t (n + 1)).1,
        match (create_bulk_issues pk par oracle t (n + 1)).2 with
        | .error e => .error e
        | .ok xs => .ok (d :: xs)) := by
  cases it with
  | obj kvs =>
    simp only [argsOf] at hci ⊢
    simp only [create_bulk_issues, pyGetD, hci]
  | null => cases hobj
  | bool b => cases hobj
  | num v f => cases hobj
  | nonfinite a b => cases hobj
  | str s => cases hobj
  | arr xs => cases hobj

/-- A failing creation aborts the loop: the trace holds only the requests
up to and including the failing one, and the error propagates. -/
theorem create_bulk_cons_fail (pk : String) (par : Option String)
    (oracle : Nat → CreateResp) (it : JVal) (t : List JVal) (n : Nat) (err : String)
    (hobj : it.isObj = true)
    (hci : create_issue (argsOf pk par it) (oracle n) = .error err) :
    create_bulk_issues pk par oracle (it :: t) n = ([argsOf pk par it], .error err) := by
  cases it with
  | obj kvs =>
    simp only [argsOf] at hci ⊢
    simp only [create_bulk_issues, pyGetD, hci]
  | null => cases hobj
  | bool b => cases hobj
  | num v f => cases hobj
  | nonfinite a b => cases hobj
  | str s => cases hobj
  | arr xs => cases hobj

/-- A non-dict descriptor aborts the loop at its field read with an
AttributeError before any request for it is issued. -/
theorem create_bulk_cons_nonobj (pk : String) (par : Option String)
    (oracle : Nat → CreateResp) (it : JVal) (t : List JVal) (n : Nat)
    (hobj : it.isObj = false) :
    create_bulk_issues pk par oracle (it :: t) n =
      ([], .error (attrErrMsg it ("get"))) := by
  cases it with
  | obj kvs => cases hobj
  | null => rfl
  | bool b => rfl
  | num v f => rfl
  | nonfinite a b => rfl
  | str s => rfl
  | arr xs => rfl

/-- A successful `create_issue` call returns the creation response body,
which passed the `.get("key")` read, so it is a dict and the later key
extraction succeeds and yields its `key` field. -/
theorem create_issue_ok_key (a : CreateArgs) (r : CreateResp) (d : JVal)
    (h : create_issue a r = .ok d) : pyGet d ("key") = .ok (totalGetKey d) := by
  cases hp : r.post with
  | error e => simp [create_issue, hp] at h
  | ok created =>
    simp only [create_issue, hp] at h
    cases hg : pyGet created ("key") with
    | error e => simp [hg] at h
    | ok ik =>
      simp only [hg] at h
      cases hu : updateStep a ik r.put with
      | error e => simp [hu] at h
      | ok u =>
        simp only [hu] at h
        injection h with h
        subst h
        cases created with
        | obj kvs => rfl
        | null => cases hg
        | bool b => cases hg
        | num v f => cases hg
        | nonfinite x y => cases hg
        | str s => cases hg
        | arr xs => cases hg

/-- Key extraction over a list of dict responses succeeds and maps each to
its `key` field. -/
theorem mapGetKeys_all (l : List JVal)
    (h : ∀ v ∈ l, pyGet v ("key") = .ok (totalGetKey v)) :
    mapGetKeys l = .ok (l.map totalGetKey) := by
  induction l with
  | nil => rfl
  | cons v t ih =>
    simp only [mapGetKeys, h v (by simp)]
    rw [ih (fun w hw => h w (by simp [hw]))]
    rfl

/-- Mapping over `List.range (n+1)` peels the head index. -/
theorem range_succ_map_peel {α : Type} (f : Nat → α) (n : Nat) :
    (List.range (n + 1)).map f = f 0 :: (List.range n).map (fun j => f (j + 1)) := by
  rw [List.range_succ_eq_map, List.map_cons, List.map_map]
  rfl

/-- When every creation in a batch of dict descriptors succeeds, the loop
issues one request per descriptor in list order and collects the responses
in that order (`ds` names the response supplied to the j-th request). -/
theorem create_bulk_all_ok (pk : String) (par : Option String)
    (oracle : Nat → CreateResp) (ds : Nat → JVal) :
    ∀ (items : List JVal) (n0 : Nat),
      (∀ it ∈ items, it.isObj = true) →
      (∀ j (hj : j < items.length),
        create_issue (argsOf pk par (items.get ⟨j, hj⟩)) (oracle (n0 + j)) = .ok (ds (n0 + j))) →
      create_bulk_issues pk par oracle items n0 =
        (items.map (argsOf pk par), .ok ((List.range items.length).map (fun j => ds (n0 + j)))) := by
  intro items
  induction items with
  | nil => intro n0 _ _; rfl
  | cons it t ih =>
    intro n0 hobj hok
    have h0 : create_issue (argsOf pk par it) (oracle n0) = .ok (ds n0) := by
      have := hok 0 (by simp)
      simpa using this
    rw [create_bulk_cons_ok pk par oracle it t n0 (ds n0) (hobj it (by simp)) h0]
    have ht := ih (n0 + 1) (fun x hx => hobj x (by simp [hx]))
      (fun j hj => by
        have := hok (j + 1) (by simpa using Nat.succ_lt_succ hj)
        have heq : n0 + (j + 1) = n0 + 1 + j := by omega
        rw [heq] at this
        exact this)
    rw [ht]
    simp only [List.map_cons, List.length_cons]
    rw [range_succ_map_peel (fun j => ds (n0 + j)) t.length]
    have harith : (fun j => ds (n0 + (j + 1))) = (fun j => ds (n0 + 1 + j)) := by
      funext j
      have : n0 + (j + 1) = n0 + 1 + j := by omega
      rw [this]
    rw [harith]
    rfl

/-- C3: a model response decoding to an array of N dict descriptors whose
creations all succeed drives the bulk-create step to issue exactly one
creation request per descriptor, in array order, and the completed record
stores the raw text and one key per creation response, the j-th key taken
from the j-th response (`ds j` is the response body served to request j). -/
theorem C3_bulk_create_in_order (ek raw : String) (oracle : Nat → CreateResp)
    (items : List JVal) (ds : Nat → JVal)
    (hp : json_loads (pyStrip raw) = .ok (.arr items))
    (hobj : ∀ it ∈ items, it.isObj = true)
    (hok : ∀ j (hj : j < items.length),
      create_issue (argsOf (pySplitHead ek) (some ek) (items.get ⟨j, hj⟩)) (oracle j)
        = .ok (ds j)) :
    (_process_epic ek (.ok raw) oracle).2 =
      items.map (argsOf (pySplitHead ek) (some ek)) ∧
    (_process_epic ek (.ok raw) oracle).1 =
      ⟨ek, ("completed"), some raw,
        some ((List.range items.length).map (fun j => totalGetKey (ds j)))⟩ := by
  have hok0 : ∀ j (hj : j < items.length),
      create_issue (argsOf (pySplitHead ek) (some ek) (items.get ⟨j, hj⟩)) (oracle (0 + j))
        = .ok (ds (0 + j)) := by
    intro j hj
    simpa using hok j hj
  have hbulk := create_bulk_all_ok (pySplitHead ek) (some ek) oracle ds items 0 hobj hok0
  simp only [Nat.zero_add] at hbulk
  have hkeys : mapGetKeys ((List.range items.length).map (fun j => ds j)) =
      .ok (((List.range items.length).map (fun j => ds j)).map totalGetKey) := by
    apply mapGetKeys_all
    intro v hv
    rcases List.mem_map.mp hv with ⟨j, hj, rfl⟩
    exact create_issue_ok_key _ _ _ (hok j (List.mem_range.mp hj))
  have hpipe : _process_epic ek (.ok raw) oracle =
      (⟨ek, "completed", some raw,
        some (((List.range items.length).map (fun j => ds j)).map totalGetKey)⟩,
       items.map (argsOf (pySplitHead ek) (some ek))) := by
    simp only [_process_epic, hp, pyLen, pyIter, hbulk, hkeys]
  rw [hpipe]
  refine ⟨rfl, ?_⟩
  simp [List.map_map, Function.comp]

/-- C3 witness: a two-descriptor response with a tracker answering every
creation with the key K1. -/
theorem C3_bulk_create_in_order_witness :
    (_process_epic ("PROJ-7") (.ok ("[\x7b\"summary\": \"A\"\x7d, \x7b\x7d]"))
      (fun _ => ⟨.ok (.obj [(("key"), .str ("K1"))]), .ok ()⟩)).2 =
      [argsOf ("PROJ") (some ("PROJ-7")) (JVal.obj [(("summary"), JVal.str ("A"))]),
        argsOf ("PROJ") (some ("PROJ-7")) (JVal.obj [])] ∧
    (_process_epic ("PROJ-7") (.ok ("[\x7b\"summary\": \"A\"\x7d, \x7b\x7d]"))
      (fun _ => ⟨.ok (.obj [(("key"), .str ("K1"))]), .ok ()⟩)).1 =
      ⟨("PROJ-7"), ("completed"), some ("[\x7b\"summary\": \"A\"\x7d, \x7b\x7d]"),
        some [JVal.str ("K1"), JVal.str ("K1")]⟩ := by
  have h := C3_bulk_create_in_order ("PROJ-7") ("[\x7b\"summary\": \"A\"\x7d, \x7b\x7d]")
    (fun _ => ⟨.ok (.obj [(("key"), .str ("K1"))]), .ok ()⟩)
    [JVal.obj [(("summary"), JVal.str ("A"))], JVal.obj []]
    (fun _ => JVal.obj [(("key"), JVal.str ("K1"))])
    rfl
    (by decide)
    (by
      intro j hj
      match j, hj with
      | 0, _ => rfl
      | 1, _ => rfl)
  exact ⟨h.1, h.2⟩

/-- C5: when the second of three dict descriptors fails at the tracker (the
creation POST for request 1 raises), the task record is the failed write
carrying the tracker error and no created issues, and the request trace
stops at the failing request: requests 0 and 1 were issued, none for the
third descriptor, and nothing else (in particular no compensating call) is
ever sent. -/
theorem C5_tracker_failure_aborts (ek raw : String) (oracle : Nat → CreateResp)
    (a b c d0 : JVal) (err : String)
    (hp : json_loads (pyStrip raw) = .ok (.arr [a, b, c]))
    (ha : a.isObj = true) (hb : b.isObj = true) (_hc : c.isObj = true)
    (h0 : create_issue (argsOf (pySplitHead ek) (some ek) a) (oracle 0) = .ok d0)
    (h1 : (oracle 1).post = .error err) :
    (_process_epic ek (.ok raw) oracle).1 = ⟨ek, ("failed"), some err, none⟩ ∧
    (_process_epic ek (.ok raw) oracle).2 =
      [argsOf (pySplitHead ek) (some ek) a, argsOf (pySplitHead ek) (some ek) b] := by
  have hci1 : create_issue (argsOf (pySplitHead ek) (some ek) b) (oracle 1) = .error err := by
    unfold create_issue
    rw [h1]
  have hbulk : create_bulk_issues (pySplitHead ek) (some ek) oracle [a, b, c] 0 =
      ([argsOf (pySplitHead ek) (some ek) a, argsOf (pySplitHead ek) (some ek) b],
        .error err) := by
    rw [create_bulk_cons_ok (pySplitHead ek) (some ek) oracle a [b, c] 0 d0 ha h0]
    rw [create_bulk_cons_fail (pySplitHead ek) (some ek) oracle b [c] 1 err hb hci1]
  constructor <;> simp only [_process_epic, hp, pyLen, pyIter, hbulk]

/-- C5 witness: three empty-dict descriptors against a tracker whose second
creation fails with the error text boom. -/
theorem C5_tracker_failure_aborts_witness :
    (_process_epic ("P-1") (.ok ("[{}, {}, {}]"))
      (fun n => if n == 1 then ⟨.error ("boom"), .ok ()⟩
        else ⟨.ok (.obj [(("key"), .str ("K"))]), .ok ()⟩)).1 =
      ⟨("P-1"), ("failed"), some ("boom"), none⟩ ∧
    (_process_epic ("P-1") (.ok ("[{}, {}, {}]"))
      (fun n => if n == 1 then ⟨.error ("boom"), .ok ()⟩
        else ⟨.ok (.obj [(("key"), .str ("K"))]), .ok ()⟩)).2 =
      [argsOf ("P") (some ("P-1")) (JVal.obj []), argsOf ("P") (some ("P-1")) (JVal.obj [])] := by
  have h := C5_tracker_failure_aborts ("P-1") ("[{}, {}, {}]")
    (fun n => if n == 1 then ⟨.error ("boom"), .ok ()⟩
      else ⟨.ok (.obj [(("key"), .str ("K"))]), .ok ()⟩)
    (JVal.obj []) (JVal.obj []) (JVal.obj []) (JVal.obj [(("key"), JVal.str ("K"))])
    ("boom") rfl rfl rfl rfl rfl rfl
  exact ⟨h.1, h.2⟩

/-- A batch containing a non-dict descriptor always raises: either an
earlier creation fails first, or the loop reaches the non-dict descriptor
and its field read raises AttributeError. -/
theorem create_bulk_nonobj_fails (pk : String) (par : Option String)
    (oracle : Nat → CreateResp) :
    ∀ (xs : List JVal) (n : Nat), (∃ x ∈ xs, x.isObj = false) →
      ∃ e, (create_bulk_issues pk par oracle xs n).2 = .error e := by
  intro xs
  induction xs with
  | nil =>
    rintro n ⟨x, hx, _⟩
    cases hx
  | cons y t ih =>
    rintro n ⟨x, hx, hno⟩
    by_cases hy : y.isObj = true
    · cases hci : create_issue (argsOf pk par y) (oracle n) with
      | error e =>
        rw [create_bulk_cons_fail pk par oracle y t n e hy hci]
        exact ⟨e, rfl⟩
      | ok d =>
        rw [create_bulk_cons_ok pk par oracle y t n d hy hci]
        have hx' : ∃ x ∈ t, x.isObj = false := by
          rcases List.mem_cons.mp hx with h | h
          · subst h
            rw [hy] at hno
            cases hno
          · exact ⟨x, h, hno⟩
        obtain ⟨e, he⟩ := ih (n + 1) hx'
        refine ⟨e, ?_⟩
        rw [he]
    · have hyf : y.isObj = false := by simpa using hy
      rw [create_bulk_cons_nonobj pk par oracle y t n hyf]
      exact ⟨attrErrMsg y ("get"), rfl⟩

/-- C6 (amended): a model response that is not valid JSON drives the task
to `failed`; so does a decoded response whose top level is not an array,
or an array with a non-dict element — except for the two empty iterables
the loop silently accepts: the empty object and the empty string complete
with an empty `created_issues`. -/
theorem C6_nonarray_or_nonobject_rejected (ek raw : String) (oracle : Nat → CreateResp) :
    (∀ e, json_loads (pyStrip raw) = .error e →
      (_process_epic ek (.ok raw) oracle).1.status = ("failed")) ∧
    ∀ v, json_loads (pyStrip raw) = .ok v →
      (v.isArr = false ∨ ∃ xs, v = .arr xs ∧ ∃ x ∈ xs, x.isObj = false) →
      ((v = .obj [] ∨ v = .str ("")) →
        (_process_epic ek (.ok raw) oracle).1.status = ("completed") ∧
        (_process_epic ek (.ok raw) oracle).1.created_issues = some []) ∧
      ((v ≠ .obj [] ∧ v ≠ .str ("")) →
        (_process_epic ek (.ok raw) oracle).1.status = ("failed")) := by
  refine ⟨fun e hp => ?_, fun v hp hshape => ?_⟩
  · simp only [_process_epic, hp]
  · cases v with
    | null =>
      refine ⟨fun h => ?_, fun _ => ?_⟩
      · rcases h with h | h <;> cases h
      · simp only [_process_epic, hp]
        rfl
    | bool b =>
      refine ⟨fun h => ?_, fun _ => ?_⟩
      · rcases h with h | h <;> cases h
      · simp only [_process_epic, hp]
        rfl
    | num q f =>
      refine ⟨fun h => ?_, fun _ => ?_⟩
      · rcases h with h | h <;> cases h
      · simp only [_process_epic, hp]
        rfl
    | nonfinite x y =>
      refine ⟨fun h => ?_, fun _ => ?_⟩
      · rcases h with h | h <;> cases h
      · simp only [_process_epic, hp]
        rfl
    | str s =>
      constructor
      · rintro (h | h)
        · cases h
        · injection h with h
          subst h
          constructor <;> (simp only [_process_epic, hp]; rfl)
      · rintro ⟨h1, h2⟩
        have hs : s ≠ "" := fun hh => h2 (by rw [hh])
        cases hd : s.data with
        | nil =>
          exact absurd (String.ext (show s.data = ("" : String).data by rw [hd])) hs
        | cons c cs =>
          simp only [_process_epic, hp, pyLen, pyIter]
          obtain ⟨e, he⟩ := create_bulk_nonobj_fails (pySplitHead ek) (some ek) oracle
            (s.data.map (fun c => JVal.str (String.mk [c]))) 0
            ⟨JVal.str (String.mk [c]), by rw [hd]; exact List.mem_cons_self _ _, rfl⟩
          rw [he]
    | arr xs =>
      rcases hshape with h | ⟨xs2, heq, hwit⟩
      · cases h
      · injection heq with heq
        subst heq
        constructor
        · rintro (h | h) <;> cases h
        · intro _
          simp only [_process_epic, hp, pyLen, pyIter]
          obtain ⟨e, he⟩ := create_bulk_nonobj_fails (pySplitHead ek) (some ek) oracle xs 0 hwit
          rw [he]
    | obj kvs =>
      cases kvs with
      | nil =>
        refine ⟨fun _ => ?_, fun h => absurd rfl h.1⟩
        constructor <;> (simp only [_process_epic, hp]; rfl)
      | cons kv kt =>
        constructor
        · rintro (h | h)
          · injection h with h
            cases h
          · cases h
        · intro _
          simp only [_process_epic, hp, pyLen, pyIter]
          obtain ⟨e, he⟩ := create_bulk_nonobj_fails (pySplitHead ek) (some ek) oracle
            ((kv :: kt).map (fun p => JVal.str p.1)) 0
            ⟨JVal.str kv.1, List.mem_cons_self _ _, rfl⟩
          rw [he]

/-- C6 (counterexample): the claim says every valid-JSON response whose top
level is not an array is rejected and the task reaches `failed`, never
`completed`; yet the response consisting of the empty JSON object reaches
`completed` with an empty created list, because iterating an empty dict
yields no descriptors. -/
theorem C6_counterexample :
    (_process_epic ("PROJ-1") (.ok ("{}")) (fun _ => ⟨.ok .null, .ok ()⟩)).1.status
      = ("completed") ∧
    (_process_epic ("PROJ-1") (.ok ("{}")) (fun _ => ⟨.ok .null, .ok ()⟩)).1.created_issues
      = some [] := ⟨rfl, rfl⟩

/-- C6 witness: the valid JSON response `true` (top level not an array)
drives the task to `failed`. -/
theorem C6_nonarray_witness :
    (_process_epic ("E-1") (.ok ("true")) (fun _ => ⟨.ok .null, .ok ()⟩)).1.status
      = ("failed") :=
  ((C6_nonarray_or_nonobject_rejected ("E-1") ("true") (fun _ => ⟨.ok .null, .ok ()⟩)).2
    (.bool true) rfl (.inl rfl)).2
    ⟨fun h => JVal.noConfusion h, fun h => JVal.noConfusion h⟩
